import Mathlib

/-!
# Operator matrices of `xyznnn.c`

A shallow embedding of the constant 5x5 integer tables declared in
`src/xyznnn.c` (the nine `Matrix` constants, the `M2` constant `multiply`
and the `M3` constant `sum`), followed by the keyed lookup that the
specification describes over them, and the theorems that settle the
specification claims against the literal tables.

A C array `int N[5][5]` is embedded as a function `Fin 5 → Fin 5 → Int`:
row index first, column index second, both in `0..4`.  All cells are small
constants, so no machine-integer wrap-around can occur.
-/

namespace Xyznnn

/-! ## The tables, as written in the source -/

/-- The macro `#define n 1` (line 1). -/
def n : Int := 1

/-- The struct `Matrix` (lines 2-4): one field, `int N[5][5]`. -/
structure Matrix where
  N : Fin 5 → Fin 5 → Int

/-- The constant `Matrix add` (lines 5-13). -/
def add : Matrix where
  N := ![
    ![0, 0, n, 0, 0],
    ![0, 0, n, 0, 0],
    ![n, n, n, n, n],
    ![0, 0, n, 0, 0],
    ![0, 0, n, 0, 0]
  ]

/-- The constant `Matrix minus` (lines 14-22). -/
def minus : Matrix where
  N := ![
    ![0, 0, 0, 0, 0],
    ![0, 0, 0, 0, 0],
    ![n, n, n, n, n],
    ![0, 0, 0, 0, 0],
    ![0, 0, 0, 0, 0]
  ]

/-- The constant `Matrix multiply` (lines 23-31). -/
def multiply : Matrix where
  N := ![
    ![n, 0, n, 0, n],
    ![0, n, n, n, 0],
    ![0, 0, n, 0, 0],
    ![0, n, n, n, 0],
    ![n, 0, n, 0, n]
  ]

/-- The constant `Matrix div` (lines 32-40). -/
def div : Matrix where
  N := ![
    ![0, 0, 0, 0, n],
    ![0, 0, 0, n, 0],
    ![0, 0, n, 0, 0],
    ![0, n, 0, 0, 0],
    ![n, 0, 0, 0, 0]
  ]

/-- The constant `Matrix module` (lines 41-49). -/
def module : Matrix where
  N := ![
    ![n, 0, 0, 0, n],
    ![0, 0, 0, n, 0],
    ![0, 0, n, 0, 0],
    ![0, n, 0, 0, 0],
    ![n, 0, 0, 0, n]
  ]

/-- The constant `Matrix pow` (lines 50-58). -/
def pow : Matrix where
  N := ![
    ![0, 0, n, 0, 0],
    ![0, n, 0, n, 0],
    ![n, 0, 0, 0, n],
    ![0, 0, 0, 0, 0],
    ![0, 0, 0, 0, 0]
  ]

/-- The constant `Matrix leftK` (lines 59-67). -/
def leftK : Matrix where
  N := ![
    ![n, 0, 0, n, 0],
    ![n, 0, n, 0, 0],
    ![n, n, 0, 0, 0],
    ![n, 0, n, 0, 0],
    ![n, 0, 0, n, 0]
  ]

/-- The constant `Matrix rightK` (lines 68-76). -/
def rightK : Matrix where
  N := ![
    ![0, n, 0, 0, n],
    ![0, n, 0, n, 0],
    ![0, n, n, 0, 0],
    ![0, n, 0, n, 0],
    ![0, n, 0, 0, n]
  ]

/-- The constant `Matrix midK` (lines 77-85). -/
def midK : Matrix where
  N := ![
    ![n, 0, 0, 0, n],
    ![n, 0, 0, n, 0],
    ![n, n, n, 0, 0],
    ![n, 0, 0, n, 0],
    ![n, 0, 0, 0, n]
  ]

/-- The macro `#define nn 2` (line 86). -/
def nn : Int := 2

/-- The struct `M2` (lines 87-89): one field, `int N[5][5]`. -/
structure M2 where
  N : Fin 5 → Fin 5 → Int

/-- The constant `M2 multiply` (lines 90-98).  The source reuses the name
`multiply`; here it lives under the name of its type. -/
def M2.multiply : M2 where
  N := ![
    ![nn, nn, nn, nn, nn],
    ![0,  nn,  0, nn,  0],
    ![0,  nn,  0, nn,  0],
    ![0,  nn,  0, nn,  0],
    ![0,  nn,  0, nn,  0]
  ]

/-- The macro `#define nnn 3` (line 100). -/
def nnn : Int := 3

/-- The struct `M3` (lines 101-103): one field, `int N[5][5]`. -/
structure M3 where
  N : Fin 5 → Fin 5 → Int

/-- The constant `M3 sum` (lines 104-112). -/
def sum : M3 where
  N := ![
    ![nnn, nnn, nnn, nnn, nnn],
    ![0,   nnn, 0,   0,     0],
    ![0,   0,   nnn, 0,     0],
    ![0,   nnn, 0,   0,     0],
    ![nnn, nnn, nnn, nnn, nnn]
  ]

/-! ## The keyed lookup of the specification -/

/-- The common shape of the `N` field of `Matrix`, `M2` and `M3`. -/
abbrev Grid := Fin 5 → Fin 5 → Int

/-- Modelled from the spec: the operator keys of `get_matrix`, the finite set
add, subtract, multiply, divide, modulo, power.  The source has no such
type; it only declares one global constant per operator. -/
inductive Operator where
  | add
  | subtract
  | multiply
  | divide
  | modulo
  | power
  deriving DecidableEq

/-- Modelled from the spec: the scale argument of `get_matrix`, constrained
to the finite set 1, 2, 3.  The source has no such type. -/
inductive Scale where
  | one
  | two
  | three
  deriving DecidableEq

/-- Modelled from the spec: the single error kind of the lookup.  The source
has no error type. -/
inductive Error where
  | UnsupportedCombination
  deriving DecidableEq

/-- Modelled from the spec: the keyed registry `(operator, scale) -> Matrix`
of the design notes, absent from the source.  It holds one entry per table
that the source declares for an operator: the six scale-1 `Matrix` constants
under their operator, the `M2` constant `multiply` under (multiply, 2) and
the `M3` constant `sum` under (add, 3). -/
def registry : List ((Operator × Scale) × Grid) :=
  [ ((.add, .one), add.N),
    ((.subtract, .one), minus.N),
    ((.multiply, .one), multiply.N),
    ((.divide, .one), div.N),
    ((.modulo, .one), module.N),
    ((.power, .one), pow.N),
    ((.multiply, .two), M2.multiply.N),
    ((.add, .three), sum.N) ]

/-- Modelled from the spec: the lookup `get_matrix(operator, scale)`, absent
from the source.  It returns the table registered under the pair and fails
with `UnsupportedCombination` when the pair has no table. -/
def get_matrix (operator : Operator) (scale : Scale) : Except Error Grid :=
  match registry.lookup (operator, scale) with
  | some m => .ok m
  | none => .error .UnsupportedCombination

/-! ## The function `fn` -/

/-- The C conversion of a float value to `int`: truncation toward zero. -/
def floatToInt (x : Rat) : Int := Int.tdiv x.num x.den

/-- The initialiser of `n5` in `fn` (line 115), as a float value.  The C
operator `^` is bitwise exclusive or and `n` is the macro. -/
def fn.n5_value (a b c d e : Rat) : Rat :=
  a * (Int.xor n 5) + b * (Int.xor n 4) + c * (Int.xor n 3) + d * (Int.xor n 2) + e * n + a

/-- The initialiser of `n4` in `fn` (line 116). -/
def fn.n4_value (a b c d e : Rat) : Rat :=
  a * (Int.xor n 4) + b * (Int.xor n 3) + c * (Int.xor n 2) + d * n + e * (Int.xor n (-1)) + b

/-- The initialiser of `n3` in `fn` (line 117). -/
def fn.n3_value (a b c d e : Rat) : Rat :=
  a * (Int.xor n 3) + b * (Int.xor n 2) + c * n + d * (Int.xor n (-1)) + e * (Int.xor n (-2)) + c

/-- The initialiser of `n2` in `fn` (line 118). -/
def fn.n2_value (a b c d e : Rat) : Rat :=
  a * (Int.xor n 2) + b * n + c * (Int.xor n (-1)) + d * (Int.xor n (-2)) +
    e * (Int.xor n (-3)) + d

/-- The initialiser of `n1` in `fn` (line 119). -/
def fn.n1_value (a b c d e : Rat) : Rat :=
  a * n + b * (Int.xor n (-1)) + c * (Int.xor n (-2)) + d * (Int.xor n (-3)) +
    e * (Int.xor n (-4)) + e

/-- The initialiser of `n0` in `fn` (line 120). -/
def fn.n0_value (a b c d e f : Rat) : Rat :=
  a * (Int.xor n (-1)) + b * (Int.xor n (-2)) + c * (Int.xor n (-3)) + d * (Int.xor n (-4)) +
    e * (Int.xor n (-5)) + f

/-- The local variables of `fn` once its body has run: the six float
coefficients and the six `const` (implicit `int`) sums. -/
structure FnLocals where
  a : Rat
  b : Rat
  c : Rat
  d : Rat
  e : Rat
  f : Rat
  n5 : Int
  n4 : Int
  n3 : Int
  n2 : Int
  n1 : Int
  n0 : Int

set_option linter.unusedVariables false in
/-- The function `fn` (lines 113-121).  Its body redeclares the six
parameters as floats, each initialised by an `int` division (truncating),
and then initialises six `const` locals.  The body returns nothing, so the
embedding yields the locals.  Float values are embedded as exact rationals:
every float that occurs here is a small integer, on which float arithmetic
is exact. -/
def fn (a b c d e f : Int) : FnLocals :=
  let a : Rat := Int.tdiv 1 7
  let b : Rat := Int.tdiv 2 7
  let c : Rat := Int.tdiv 3 7
  let d : Rat := Int.tdiv 4 7
  let e : Rat := Int.tdiv 5 7
  let f : Rat := Int.tdiv 6 7
  { a := a, b := b, c := c, d := d, e := e, f := f,
    n5 := floatToInt (fn.n5_value a b c d e),
    n4 := floatToInt (fn.n4_value a b c d e),
    n3 := floatToInt (fn.n3_value a b c d e),
    n2 := floatToInt (fn.n2_value a b c d e),
    n1 := floatToInt (fn.n1_value a b c d e),
    n0 := floatToInt (fn.n0_value a b c d e f) }

/-! ## Measures and names over the scale-1 tables -/

/-- The number of non-zero cells in column `j` of a grid. -/
def nonzeroInColumn (g : Grid) (j : Fin 5) : Nat :=
  ((List.finRange 5).filter (fun i => g i j ≠ 0)).length

/-- The names of the nine scale-1 `Matrix` constants, in declaration order
(lines 5-85). -/
inductive Scale1Name where
  | add
  | minus
  | multiply
  | div
  | module
  | pow
  | leftK
  | rightK
  | midK
  deriving DecidableEq

/-- The constant that a scale-1 name denotes. -/
def Scale1Name.matrix : Scale1Name → Matrix
  | .add => Xyznnn.add
  | .minus => Xyznnn.minus
  | .multiply => Xyznnn.multiply
  | .div => Xyznnn.div
  | .module => Xyznnn.module
  | .pow => Xyznnn.pow
  | .leftK => Xyznnn.leftK
  | .rightK => Xyznnn.rightK
  | .midK => Xyznnn.midK

/-! ## Theorems -/

/-- C1: in each of the eleven tables (the nine scale-1 `Matrix` constants,
the scale-2 `M2` multiply and the scale-3 `M3` sum) every cell is 0 or the
scale constant of its table (1, 2 and 3 respectively); in particular every
non-zero cell of the six scale-1 operator matrices equals 1. -/
theorem cells_zero_or_scale :
    (∀ i j : Fin 5, add.N i j = 0 ∨ add.N i j = 1) ∧
    (∀ i j : Fin 5, minus.N i j = 0 ∨ minus.N i j = 1) ∧
    (∀ i j : Fin 5, multiply.N i j = 0 ∨ multiply.N i j = 1) ∧
    (∀ i j : Fin 5, div.N i j = 0 ∨ div.N i j = 1) ∧
    (∀ i j : Fin 5, module.N i j = 0 ∨ module.N i j = 1) ∧
    (∀ i j : Fin 5, pow.N i j = 0 ∨ pow.N i j = 1) ∧
    (∀ i j : Fin 5, leftK.N i j = 0 ∨ leftK.N i j = 1) ∧
    (∀ i j : Fin 5, rightK.N i j = 0 ∨ rightK.N i j = 1) ∧
    (∀ i j : Fin 5, midK.N i j = 0 ∨ midK.N i j = 1) ∧
    (∀ i j : Fin 5, M2.multiply.N i j = 0 ∨ M2.multiply.N i j = 2) ∧
    (∀ i j : Fin 5, sum.N i j = 0 ∨ sum.N i j = 3) ∧
    (∀ i j : Fin 5, add.N i j ≠ 0 → add.N i j = 1) ∧
    (∀ i j : Fin 5, minus.N i j ≠ 0 → minus.N i j = 1) ∧
    (∀ i j : Fin 5, multiply.N i j ≠ 0 → multiply.N i j = 1) ∧
    (∀ i j : Fin 5, div.N i j ≠ 0 → div.N i j = 1) ∧
    (∀ i j : Fin 5, module.N i j ≠ 0 → module.N i j = 1) ∧
    (∀ i j : Fin 5, pow.N i j ≠ 0 → pow.N i j = 1) := by
  decide

/-- The lookup unfolded into one equation per key pair. -/
theorem get_matrix_cases (op : Operator) (s : Scale) :
    get_matrix op s =
      match op, s with
      | .add, .one => .ok add.N
      | .subtract, .one => .ok minus.N
      | .multiply, .one => .ok multiply.N
      | .divide, .one => .ok div.N
      | .modulo, .one => .ok module.N
      | .power, .one => .ok pow.N
      | .multiply, .two => .ok M2.multiply.N
      | .add, .three => .ok sum.N
      | _, _ => .error .UnsupportedCombination := by
  cases op <;> cases s <;> rfl

/-- C2: over the six operators and the three scales, `get_matrix` returns a
table exactly for the eight pairs (op, 1) for each operator, (multiply, 2)
and (add, 3), each time the table the source declares for it, and fails with
`UnsupportedCombination` for every other pair; in particular
`get_matrix(divide, 2)` fails with `UnsupportedCombination`. -/
theorem get_matrix_supported_pairs :
    get_matrix .add .one = .ok add.N ∧
    get_matrix .subtract .one = .ok minus.N ∧
    get_matrix .multiply .one = .ok multiply.N ∧
    get_matrix .divide .one = .ok div.N ∧
    get_matrix .modulo .one = .ok module.N ∧
    get_matrix .power .one = .ok pow.N ∧
    get_matrix .multiply .two = .ok M2.multiply.N ∧
    get_matrix .add .three = .ok sum.N ∧
    (∀ (op : Operator) (s : Scale), (∃ m, get_matrix op s = .ok m) ↔
      (s = .one ∨ (op = .multiply ∧ s = .two) ∨ (op = .add ∧ s = .three))) ∧
    (∀ (op : Operator) (s : Scale), get_matrix op s = .error .UnsupportedCombination ↔
      ¬ (s = .one ∨ (op = .multiply ∧ s = .two) ∨ (op = .add ∧ s = .three))) ∧
    get_matrix .divide .two = .error .UnsupportedCombination := by
  refine ⟨rfl, rfl, rfl, rfl, rfl, rfl, rfl, rfl, ?_, ?_, rfl⟩
  · intro op s
    cases op <;> cases s <;> simp [get_matrix_cases]
  · intro op s
    cases op <;> cases s <;> simp [get_matrix_cases]

/-- C3, counterexample: the scale-2 multiply table is not twice the scale-1
multiply table.  At cell (0,1) the `M2` table holds 2 while twice the
`Matrix` table holds 0. -/
theorem M2_multiply_not_twice_multiply :
    M2.multiply.N 0 1 = 2 ∧ 2 * multiply.N 0 1 = 0 ∧
    ¬ (∀ i j : Fin 5, M2.multiply.N i j = 2 * multiply.N i j) := by
  decide

/-- C3, amended: the scale-2 multiply table is a shape of its own multiplied
cell-wise by 2, namely row 0 together with columns 1 and 3: every cell (i,j)
holds 2 if i = 0 or j = 1 or j = 3 and 0 otherwise, so that its non-zero
cells equal 2. -/
theorem M2_multiply_shape :
    (∀ i j : Fin 5, M2.multiply.N i j = 2 * (if i = 0 ∨ j = 1 ∨ j = 3 then 1 else 0)) ∧
    (∀ i j : Fin 5, M2.multiply.N i j ≠ 0 → M2.multiply.N i j = 2) := by
  decide

/-- C4, counterexample: the scale-3 table `sum` is not three times the
scale-1 `add` table.  At cell (0,0) `sum` holds 3 while three times `add`
holds 0. -/
theorem sum_not_thrice_add :
    sum.N 0 0 = 3 ∧ 3 * add.N 0 0 = 0 ∧
    ¬ (∀ i j : Fin 5, sum.N i j = 3 * add.N i j) := by
  decide

/-- C4, amended: the scale-3 table `sum` is a shape of its own multiplied
cell-wise by 3, namely rows 0 and 4 together with the cells (1,1), (2,2) and
(3,1): every cell holds 3 on that shape and 0 elsewhere, so that its
non-zero cells equal 3. -/
theorem sum_shape :
    (∀ i j : Fin 5, sum.N i j =
      3 * (if i = 0 ∨ i = 4 ∨ (i = 1 ∧ j = 1) ∨ (i = 2 ∧ j = 2) ∨ (i = 3 ∧ j = 1)
        then 1 else 0)) ∧
    (∀ i j : Fin 5, sum.N i j ≠ 0 → sum.N i j = 3) := by
  decide

/-- C5: the scale-1 power matrix `pow` holds 1 at exactly the five cells
(0,2), (1,1), (1,3), (2,0), (2,4) and 0 at each of the other twenty cells;
in particular cell (1,1) is 1 and cell (0,0) is 0. -/
theorem pow_shape :
    (∀ i j : Fin 5, pow.N i j =
      if (i = 0 ∧ j = 2) ∨ (i = 1 ∧ j = 1) ∨ (i = 1 ∧ j = 3) ∨ (i = 2 ∧ j = 0) ∨
        (i = 2 ∧ j = 4) then 1 else 0) ∧
    pow.N 1 1 = 1 ∧ pow.N 0 0 = 0 := by
  decide

/-- C6, counterexample: row 2 of the scale-1 multiply matrix is not full.
Cell (2,0) holds 0, so the matrix is not the union of both diagonals, the
middle row and the center column. -/
theorem multiply_row2_not_full :
    multiply.N 2 0 = 0 ∧
    ¬ (∀ i j : Fin 5, multiply.N i j =
      if i = j ∨ i.val + j.val = 4 ∨ i = 2 ∨ j = 2 then 1 else 0) ∧
    ¬ (∀ j : Fin 5, multiply.N 2 j = 1) := by
  decide

/-- C6, amended: the scale-1 multiply matrix is made of both diagonals and
the center column only: every cell (i,j) holds 1 if i = j or i + j = 4 or
j = 2, and 0 otherwise; in row 2 only the center cell is 1. -/
theorem multiply_shape :
    (∀ i j : Fin 5, multiply.N i j =
      if i = j ∨ i.val + j.val = 4 ∨ j = 2 then 1 else 0) ∧
    (∀ j : Fin 5, multiply.N 2 j = if j = 2 then 1 else 0) := by
  decide

/-- C7, counterexample: the non-zero cells of the scale-1 modulo matrix
`module` are not confined to the corners and the center.  Cells (1,3) and
(3,1) hold 1. -/
theorem module_not_confined :
    module.N 1 3 = 1 ∧ module.N 3 1 = 1 ∧
    ¬ (∀ i j : Fin 5, module.N i j =
      if (i = 0 ∧ j = 0) ∨ (i = 0 ∧ j = 4) ∨ (i = 2 ∧ j = 2) ∨ (i = 4 ∧ j = 0) ∨
        (i = 4 ∧ j = 4) then 1 else 0) := by
  decide

/-- C7, amended: the non-zero cells of the scale-1 modulo matrix `module`
are the whole anti-diagonal and the two remaining corners: every cell (i,j)
holds 1 if i + j = 4 or (i,j) is (0,0) or (4,4), and 0 otherwise. -/
theorem module_shape :
    ∀ i j : Fin 5, module.N i j =
      if i.val + j.val = 4 ∨ (i = 0 ∧ j = 0) ∨ (i = 4 ∧ j = 4) then 1 else 0 := by
  decide

/-- C8, counterexample: `rightK` is not the mirror image of `leftK`.  Cell
(1,1) of `rightK` holds 1 while the mirrored cell (1,3) of `leftK` holds 0. -/
theorem rightK_not_mirror_of_leftK :
    rightK.N 1 1 = 1 ∧ leftK.N 1 3 = 0 ∧
    ¬ (∀ i j : Fin 5, rightK.N i j = leftK.N i ⟨4 - j.val, by omega⟩) := by
  decide

/-- C8, amended: `rightK` agrees with the mirror image of `leftK` exactly on
rows 0 and 4 and on column 0, that is rightK.N i j = leftK.N i (4 - j) if and
only if i = 0 or i = 4 or j = 0; what relates the two tables on every row is
a move of one column to the right: rightK.N i (j + 1) = leftK.N i j for
every column j in 0..3, and column 0 of `rightK` is 0. -/
theorem rightK_mirror_rows_and_shift :
    (∀ i j : Fin 5, rightK.N i j = leftK.N i ⟨4 - j.val, by omega⟩ ↔
      (i = 0 ∨ i = 4 ∨ j = 0)) ∧
    (∀ (i : Fin 5) (j : Fin 4),
      rightK.N i ⟨j.val + 1, by omega⟩ = leftK.N i ⟨j.val, by omega⟩) ∧
    (∀ i : Fin 5, rightK.N i 0 = 0) := by
  decide

/-- C9: the scale-1 add matrix is the plus sign: every cell (i,j) holds 1 if
i = 2 or j = 2, and 0 otherwise. -/
theorem add_shape :
    ∀ i j : Fin 5, add.N i j = if i = 2 ∨ j = 2 then 1 else 0 := by
  decide

/-- C10: the scale-1 subtract matrix `minus` has only row 2 full: every cell
(i,j) holds 1 if i = 2, and 0 otherwise. -/
theorem minus_shape :
    ∀ i j : Fin 5, minus.N i j = if i = 2 then 1 else 0 := by
  decide


/-- C11: the scale-1 divide matrix `div` is the anti-diagonal: every cell
(i,j) holds 1 if i + j = 4, and 0 otherwise. -/
theorem div_shape :
    ∀ i j : Fin 5, div.N i j = if i.val + j.val = 4 then 1 else 0 := by
  decide

/-- C12, counterexample: `midK` is not center-column dominant.  Its center
column holds one non-zero cell while column 0 holds five, column 3 two and
column 4 two. -/
theorem midK_center_column_not_dominant :
    nonzeroInColumn midK.N 2 = 1 ∧ nonzeroInColumn midK.N 0 = 5 ∧
    ¬ (nonzeroInColumn midK.N 0 ≤ nonzeroInColumn midK.N 2 ∧
       nonzeroInColumn midK.N 1 ≤ nonzeroInColumn midK.N 2 ∧
       nonzeroInColumn midK.N 3 ≤ nonzeroInColumn midK.N 2 ∧
       nonzeroInColumn midK.N 4 ≤ nonzeroInColumn midK.N 2) := by
  decide

/-- C12, amended: `midK` is column-0 dominant: column 0 is full, with five
non-zero cells, which is at least the number of non-zero cells of each of
the columns 1, 2, 3 and 4 (one, one, two and two); the center column holds a
single non-zero cell, the cell (2,2). -/
theorem midK_column0_dominant :
    (nonzeroInColumn midK.N 0 = 5 ∧ nonzeroInColumn midK.N 1 = 1 ∧
      nonzeroInColumn midK.N 2 = 1 ∧ nonzeroInColumn midK.N 3 = 2 ∧
      nonzeroInColumn midK.N 4 = 2) ∧
    (∀ j : Fin 5, nonzeroInColumn midK.N j ≤ nonzeroInColumn midK.N 0) ∧
    (∀ i : Fin 5, midK.N i 0 = 1) ∧
    (∀ i : Fin 5, midK.N i 2 = if i = 2 then 1 else 0) := by
  decide

/-- C13: in `fn` each coefficient initialiser k/7, k = 1..6, is an integer
division that evaluates to 0, so all six coefficients a..f are 0, each of
the six initialiser sums of n5, n4, n3, n2, n1, n0 evaluates to 0, and the
six locals are 0, whatever the arguments. -/
theorem fn_coefficients_and_sums_zero (a b c d e f : Int) :
    (Int.tdiv 1 7 = 0 ∧ Int.tdiv 2 7 = 0 ∧ Int.tdiv 3 7 = 0 ∧
      Int.tdiv 4 7 = 0 ∧ Int.tdiv 5 7 = 0 ∧ Int.tdiv 6 7 = 0) ∧
    ((fn a b c d e f).a = 0 ∧ (fn a b c d e f).b = 0 ∧ (fn a b c d e f).c = 0 ∧
      (fn a b c d e f).d = 0 ∧ (fn a b c d e f).e = 0 ∧ (fn a b c d e f).f = 0) ∧
    (fn.n5_value (fn a b c d e f).a (fn a b c d e f).b (fn a b c d e f).c
        (fn a b c d e f).d (fn a b c d e f).e = 0 ∧
      fn.n4_value (fn a b c d e f).a (fn a b c d e f).b (fn a b c d e f).c
        (fn a b c d e f).d (fn a b c d e f).e = 0 ∧
      fn.n3_value (fn a b c d e f).a (fn a b c d e f).b (fn a b c d e f).c
        (fn a b c d e f).d (fn a b c d e f).e = 0 ∧
      fn.n2_value (fn a b c d e f).a (fn a b c d e f).b (fn a b c d e f).c
        (fn a b c d e f).d (fn a b c d e f).e = 0 ∧
      fn.n1_value (fn a b c d e f).a (fn a b c d e f).b (fn a b c d e f).c
        (fn a b c d e f).d (fn a b c d e f).e = 0 ∧
      fn.n0_value (fn a b c d e f).a (fn a b c d e f).b (fn a b c d e f).c
        (fn a b c d e f).d (fn a b c d e f).e (fn a b c d e f).f = 0) ∧
    ((fn a b c d e f).n5 = 0 ∧ (fn a b c d e f).n4 = 0 ∧ (fn a b c d e f).n3 = 0 ∧
      (fn a b c d e f).n2 = 0 ∧ (fn a b c d e f).n1 = 0 ∧ (fn a b c d e f).n0 = 0) := by
  have h1 : Int.tdiv 1 7 = 0 := by decide
  have h2 : Int.tdiv 2 7 = 0 := by decide
  have h3 : Int.tdiv 3 7 = 0 := by decide
  have h4 : Int.tdiv 4 7 = 0 := by decide
  have h5 : Int.tdiv 5 7 = 0 := by decide
  have h6 : Int.tdiv 6 7 = 0 := by decide
  have hz : floatToInt 0 = 0 := by decide
  refine ⟨⟨h1, h2, h3, h4, h5, h6⟩, ?_, ?_, ?_⟩ <;>
    simp [fn, fn.n5_value, fn.n4_value, fn.n3_value, fn.n2_value, fn.n1_value,
      fn.n0_value, h1, h2, h3, h4, h5, h6, hz]

/-- C14: `rightK` is `leftK` shifted one column to the right: for every row
i in 0..4 and every column j in 0..3, rightK.N i (j + 1) = leftK.N i j;
moreover column 0 of `rightK` and column 4 of `leftK` are entirely 0, so no
cell is lost or introduced by the shift. -/
theorem rightK_is_leftK_shifted :
    (∀ (i : Fin 5) (j : Fin 4),
      rightK.N i ⟨j.val + 1, by omega⟩ = leftK.N i ⟨j.val, by omega⟩) ∧
    (∀ i : Fin 5, rightK.N i 0 = 0) ∧
    (∀ i : Fin 5, leftK.N i 4 = 0) := by
  decide

/-- C15: the scale-1 operator shapes are nested cell-wise: at every cell
div is at most module, module is at most multiply, and minus is at most add;
that is, every non-zero cell of div is non-zero in module, every non-zero
cell of module is non-zero in multiply, and every non-zero cell of minus is
non-zero in add. -/
theorem shapes_nested :
    (∀ i j : Fin 5, div.N i j ≤ module.N i j ∧ module.N i j ≤ multiply.N i j) ∧
    (∀ i j : Fin 5, minus.N i j ≤ add.N i j) ∧
    (∀ i j : Fin 5, div.N i j ≠ 0 → module.N i j ≠ 0) ∧
    (∀ i j : Fin 5, module.N i j ≠ 0 → multiply.N i j ≠ 0) ∧
    (∀ i j : Fin 5, minus.N i j ≠ 0 → add.N i j ≠ 0) := by
  decide

/-- C16: the nine scale-1 `Matrix` constants are pairwise distinct as 5x5
grids: any two different names denote matrices that differ at some cell
(i,j), so the map from a scale-1 name to its matrix is injective. -/
theorem scale1_matrices_distinct :
    (∀ x y : Scale1Name, x ≠ y → ∃ i j : Fin 5, x.matrix.N i j ≠ y.matrix.N i j) ∧
    Function.Injective Scale1Name.matrix := by
  have key : ∀ x y : Scale1Name, x ≠ y →
      ∃ i j : Fin 5, x.matrix.N i j ≠ y.matrix.N i j := by
    intro x y h
    cases x <;> cases y <;> first | exact absurd rfl h | decide
  refine ⟨key, ?_⟩
  intro x y hxy
  by_contra h
  obtain ⟨i, j, hij⟩ := key x y h
  exact hij (by rw [hxy])

end Xyznnn
